import Mathlib

/-!
Verification of the payroll processor (`payroll_processor.py`).

The program works with Python `Decimal` values.  Every decimal reachable in
this program has a non-positive exponent (literals such as `40`, `40.5`,
`15.75`, `1.5`, `0.2`; addition and subtraction keep the smaller exponent;
multiplication adds exponents), so a decimal is embedded as an integer
coefficient together with the number of fractional digits:
`⟨c, e⟩` denotes the value `c / 10^e`.  Arithmetic is exact, following the
spec's requirement of exact decimal arithmetic.
-/

/-- Exact decimal number: value `c / 10 ^ e` (Python `Decimal` with
exponent `-e`). -/
structure Dec where
  c : ℤ
  e : ℕ
deriving DecidableEq, Repr

/-- Rational value of a decimal. -/
def Dec.val (d : Dec) : ℚ := (d.c : ℚ) / 10 ^ d.e

/-- Decimal addition: exponents are aligned to the smaller one
(larger fractional-digit count), as Python `Decimal.__add__` does. -/
def Dec.add (a b : Dec) : Dec :=
  ⟨a.c * 10 ^ (max a.e b.e - a.e) + b.c * 10 ^ (max a.e b.e - b.e), max a.e b.e⟩

/-- Decimal subtraction, aligning exponents like addition. -/
def Dec.sub (a b : Dec) : Dec :=
  ⟨a.c * 10 ^ (max a.e b.e - a.e) - b.c * 10 ^ (max a.e b.e - b.e), max a.e b.e⟩

/-- Decimal multiplication: coefficients multiply, exponents add. -/
def Dec.mul (a b : Dec) : Dec := ⟨a.c * b.c, a.e + b.e⟩

/-- Value comparison `a < b`, as Python `Decimal` comparison (by value). -/
def Dec.lt (a b : Dec) : Prop := a.c * 10 ^ b.e < b.c * 10 ^ a.e

/-- Value comparison `a ≤ b`. -/
def Dec.le (a b : Dec) : Prop := a.c * 10 ^ b.e ≤ b.c * 10 ^ a.e

instance (a b : Dec) : Decidable (a.lt b) :=
  inferInstanceAs (Decidable (a.c * 10 ^ b.e < b.c * 10 ^ a.e))

instance (a b : Dec) : Decidable (a.le b) :=
  inferInstanceAs (Decidable (a.c * 10 ^ b.e ≤ b.c * 10 ^ a.e))

/-! ## Constants (module constants of `payroll_processor.py`) -/

/-- `REGULAR_HOURS = 40` (an `int` in the source; it only ever meets
`Decimal` values, where it behaves as the decimal `40`). -/
def REGULAR_HOURS : Dec := ⟨40, 0⟩

/-- `OVERTIME_MULTIPLIER = Decimal('1.5')`. -/
def OVERTIME_MULTIPLIER : Dec := ⟨15, 1⟩

/-- `TAX_RATE = Decimal('0.2')`. -/
def TAX_RATE : Dec := ⟨2, 1⟩

/-! ## Errors

The source raises `ValueError` with four distinct messages.  Each message is
embedded as a constructor; `message` recovers the Python message text. -/

/-- The four `ValueError`s the program can raise. -/
inductive PayrollError where
  | invalidName
  | negativeHours
  | nonPositiveRate
  | emptyRoster
deriving DecidableEq, Repr

/-- The Python exception message of each error. -/
def PayrollError.message : PayrollError → String
  | .invalidName => "Employee name must be a non-empty string"
  | .negativeHours => "Hours worked cannot be negative"
  | .nonPositiveRate => "Hourly rate must be positive"
  | .emptyRoster => "Employee list cannot be empty"

/-! ## Employee -/

/-- The `Employee` dataclass. -/
structure Employee where
  name : String
  hours_worked : Dec
  hourly_rate : Dec
deriving DecidableEq, Repr

/-- `Employee.validate`.  The Python guard
`not self.name or not isinstance(self.name, str)` reduces, for a `str`
field, to the name being empty (`isinstance` is always true in the typed
embedding). -/
def Employee.validate (e : Employee) : Except PayrollError Unit :=
  if e.name = "" then Except.error PayrollError.invalidName
  else if e.hours_worked.lt ⟨0, 0⟩ then Except.error PayrollError.negativeHours
  else if e.hourly_rate.le ⟨0, 0⟩ then Except.error PayrollError.nonPositiveRate
  else Except.ok ()

/-! ## PayrollProcessor -/

/-- The `PayrollProcessor`: owns the employee list stored by `__init__`. -/
structure PayrollProcessor where
  employees : List Employee
deriving DecidableEq, Repr

/-- The `for employee in self.employees: employee.validate()` loop of
`_validate_employees`: the first exception propagates immediately. -/
def validateLoop : List Employee → Except PayrollError Unit
  | [] => Except.ok ()
  | e :: rest =>
    match e.validate with
    | Except.error err => Except.error err
    | Except.ok _ => validateLoop rest

/-- `PayrollProcessor._validate_employees`: empty-list check
(`if not self.employees`), then the validation loop. -/
def validate_employees (employees : List Employee) : Except PayrollError Unit :=
  if employees = [] then Except.error PayrollError.emptyRoster
  else validateLoop employees

/-- `PayrollProcessor.__init__`: stores the list and validates it; an
exception escaping `__init__` means no processor object is produced. -/
def PayrollProcessor.create (employees : List Employee) :
    Except PayrollError PayrollProcessor :=
  match validate_employees employees with
  | Except.error err => Except.error err
  | Except.ok _ => Except.ok ⟨employees⟩

/-! ## calculate_payroll -/

/-- The dictionary returned by `calculate_payroll`. -/
structure Breakdown where
  overtime_hours : Dec
  overtime_pay : Dec
  gross_pay : Dec
  tax_amount : Dec
  net_pay : Dec
deriving DecidableEq, Repr

/-- `PayrollProcessor.calculate_payroll`.  The `try/except` wrapper only
logs and re-raises; the body itself cannot fail, so the embedding is total. -/
def calculate_payroll (employee : Employee) : Breakdown :=
  let branch :=
    if REGULAR_HOURS.lt employee.hours_worked then
      let overtime_hours := employee.hours_worked.sub REGULAR_HOURS
      let overtime_pay := overtime_hours.mul (employee.hourly_rate.mul OVERTIME_MULTIPLIER)
      let regular_pay := REGULAR_HOURS.mul employee.hourly_rate
      let gross_pay := regular_pay.add overtime_pay
      (overtime_hours, overtime_pay, gross_pay)
    else
      (⟨0, 0⟩, ⟨0, 0⟩, employee.hours_worked.mul employee.hourly_rate)
  let gross_pay := branch.2.2
  let tax_amount := gross_pay.mul TAX_RATE
  let net_pay := gross_pay.sub tax_amount
  ⟨branch.1, branch.2.1, gross_pay, tax_amount, net_pay⟩

/-- Method-call view of `calculate_payroll`: the body of the Python method
contains no assignment to `self` or to `employee`, so as a state
transformer it returns the breakdown together with the unchanged processor
and employee. -/
def calculate_payroll_call (self : PayrollProcessor) (employee : Employee) :
    Breakdown × PayrollProcessor × Employee :=
  (calculate_payroll employee, self, employee)

/-! ## String rendering

`generate_report` renders `hours_worked` with `str(Decimal)` and money
with the `.2f` format (round half to even, exactly two fractional
digits).  Both are embedded below, restricted to the non-positive-exponent
decimals of this development. -/

/-- Decimal digit characters of a natural number, most significant first;
`fuel`-driven structural recursion (the fuel `n + 1` always suffices). -/
def natDigitsAux : ℕ → ℕ → List Char
  | 0, _ => []
  | fuel + 1, n =>
    if n < 10 then [Nat.digitChar n]
    else natDigitsAux fuel (n / 10) ++ [Nat.digitChar (n % 10)]

/-- Digit list of a natural number ("0" for zero). -/
def digitsOf (n : ℕ) : List Char := natDigitsAux (n + 1) n

/-- Decimal string of a natural number. -/
def natStr (n : ℕ) : String := String.mk (digitsOf n)

/-- Decimal string of an integer. -/
def intStr (x : ℤ) : String :=
  (if x < 0 then "-" else "") ++ natStr x.natAbs

/-- Python `Decimal.__str__` for decimals with non-positive exponent: plain
notation when the adjusted exponent is at least `-6`, scientific notation
(one digit before the point) otherwise. -/
def Dec.str (d : Dec) : String :=
  let sign := if d.c < 0 then "-" else ""
  let ds := digitsOf d.c.natAbs
  let leftdigits : ℤ := (ds.length : ℤ) - (d.e : ℤ)
  let dotplace : ℤ := if -6 < leftdigits then leftdigits else 1
  let body :=
    if dotplace ≤ 0 then
      "0." ++ String.mk (List.replicate (-dotplace).toNat '0') ++ String.mk ds
    else if (ds.length : ℤ) ≤ dotplace then
      String.mk ds ++ String.mk (List.replicate (dotplace - ds.length).toNat '0')
    else
      String.mk (ds.take dotplace.toNat) ++ "." ++ String.mk (ds.drop dotplace.toNat)
  let exppart :=
    if leftdigits = dotplace then ""
    else "E" ++ (if 0 ≤ leftdigits - dotplace then "+" else "") ++ intStr (leftdigits - dotplace)
  sign ++ body ++ exppart

/-- Two-digit zero-padded rendering of a number below 100. -/
def pad2 (n : ℕ) : String := if n < 10 then "0" ++ natStr n else natStr n

/-- Magnitude of a decimal scaled to two fractional digits, rounded half
to even (the rounding of Python's `.2f` format under the default
`ROUND_HALF_EVEN` context). -/
def Dec.scaled2 (d : Dec) : ℕ :=
  let n := d.c.natAbs
  if d.e ≤ 2 then n * 10 ^ (2 - d.e)
  else
    let pw := 10 ^ (d.e - 2)
    let q := n / pw
    let r := n % pw
    if pw < 2 * r then q + 1
    else if 2 * r < pw then q
    else if q % 2 = 0 then q else q + 1

/-- Python `format(d, '.2f')`: sign, integer part, point, two digits. -/
def Dec.fmt2 (d : Dec) : String :=
  let s2 := d.scaled2
  (if d.c < 0 then "-" else "") ++ natStr (s2 / 100) ++ "." ++ pad2 (s2 % 100)

/-! ## generate_report -/

/-- The per-employee f-string of `generate_report`:
`f"{employee.name} worked {employee.hours_worked} hrs, gross
${payroll['gross_pay']:.2f}, net ${payroll['net_pay']:.2f}"`. -/
def employee_line (employee : Employee) : String :=
  let payroll := calculate_payroll employee
  employee.name ++ " worked " ++ employee.hours_worked.str ++ " hrs, " ++
    "gross $" ++ payroll.gross_pay.fmt2 ++ ", " ++
    "net $" ++ payroll.net_pay.fmt2

/-- `"\n".join(lines)`. -/
def join_nl : List String → String
  | [] => ""
  | [s] => s
  | s :: rest => s ++ "\n" ++ join_nl rest

/-- The body of the `for` loop of `generate_report`, acting on the
accumulator (report lines so far, total gross, total net). -/
def report_step (acc : List String × Dec × Dec) (employee : Employee) :
    List String × Dec × Dec :=
  let payroll := calculate_payroll employee
  (acc.1 ++ [employee_line employee],
   acc.2.1.add payroll.gross_pay,
   acc.2.2.add payroll.net_pay)

/-- `PayrollProcessor.generate_report`: header lines, the loop, footer
lines, joined with newlines.  The `try/except` wrapper only logs and
re-raises, and the body cannot fail, so the embedding is total. -/
def generate_report (self : PayrollProcessor) : String :=
  let init : List String × Dec × Dec :=
    (["Employee Payroll Report:", "========================"], ⟨0, 0⟩, ⟨0, 0⟩)
  let acc := self.employees.foldl report_step init
  join_nl (acc.1 ++ ["Total Gross: $" ++ acc.2.1.fmt2, "Total Net: $" ++ acc.2.2.fmt2])

/-- The running `total_gross` accumulator of `generate_report` after
processing the given employees. -/
def total_gross : List Employee → Dec → Dec
  | [], tg => tg
  | e :: rest, tg => total_gross rest (tg.add (calculate_payroll e).gross_pay)

/-- The running `total_net` accumulator of `generate_report` after
processing the given employees. -/
def total_net : List Employee → Dec → Dec
  | [], tn => tn
  | e :: rest, tn => total_net rest (tn.add (calculate_payroll e).net_pay)

/-! ## Substring and line helpers (for stating report properties) -/

/-- Boolean list-prefix test. -/
def isPrefixB : List Char → List Char → Bool
  | [], _ => true
  | _ :: _, [] => false
  | a :: as, b :: bs => a == b && isPrefixB as bs

/-- Boolean contiguous-sublist (substring) test. -/
def isInfixB (pat : List Char) : List Char → Bool
  | [] => isPrefixB pat []
  | c :: rest => isPrefixB pat (c :: rest) || isInfixB pat rest

/-- Split a character list at newline characters. -/
def splitOnNl : List Char → List (List Char)
  | [] => [[]]
  | c :: rest =>
    if c = '\n' then [] :: splitOnNl rest
    else
      match splitOnNl rest with
      | [] => [[c]]
      | h :: t => (c :: h) :: t

/-- The scenario-C roster `[John(40, 15), Jane(45, 20)]`. -/
def scenario_c_roster : List Employee :=
  [⟨"John", ⟨40, 0⟩, ⟨15, 0⟩⟩, ⟨"Jane", ⟨45, 0⟩, ⟨20, 0⟩⟩]

/-- The report lines of scenario C: the generated report text split at
newlines. -/
def scenario_c_lines : List (List Char) :=
  splitOnNl (generate_report ⟨scenario_c_roster⟩).data

/-! ## Value lemmas for `Dec` -/

theorem Dec.ten_pow_pos (e : ℕ) : (0 : ℚ) < 10 ^ e := by positivity

theorem Dec.q_scale (x : ℚ) (e m : ℕ) (h : e ≤ m) :
    x * 10 ^ (m - e) / 10 ^ m = x / 10 ^ e := by
  have h10 : (10 : ℚ) ^ e * 10 ^ (m - e) = 10 ^ m := by
    rw [← pow_add, Nat.add_sub_cancel' h]
  rw [← h10, mul_div_mul_right]
  positivity

@[simp] theorem Dec.val_add (a b : Dec) : (a.add b).val = a.val + b.val := by
  unfold add val
  push_cast
  rw [add_div, q_scale _ _ _ (le_max_left a.e b.e),
    q_scale _ _ _ (le_max_right a.e b.e)]

@[simp] theorem Dec.val_sub (a b : Dec) : (a.sub b).val = a.val - b.val := by
  unfold sub val
  push_cast
  rw [sub_div, q_scale _ _ _ (le_max_left a.e b.e),
    q_scale _ _ _ (le_max_right a.e b.e)]

@[simp] theorem Dec.val_mul (a b : Dec) : (a.mul b).val = a.val * b.val := by
  unfold mul val
  push_cast
  rw [pow_add, div_mul_div_comm]

theorem Dec.lt_iff_val (a b : Dec) : a.lt b ↔ a.val < b.val := by
  unfold lt val
  rw [div_lt_div_iff₀ (ten_pow_pos a.e) (ten_pow_pos b.e)]
  constructor
  · intro h
    exact_mod_cast h
  · intro h
    exact_mod_cast h

theorem Dec.le_iff_val (a b : Dec) : a.le b ↔ a.val ≤ b.val := by
  unfold le val
  rw [div_le_div_iff₀ (ten_pow_pos a.e) (ten_pow_pos b.e)]
  constructor
  · intro h
    exact_mod_cast h
  · intro h
    exact_mod_cast h

@[simp] theorem Dec.val_zero : (Dec.mk 0 0).val = 0 := by
  unfold val
  norm_num

theorem val_REGULAR_HOURS : REGULAR_HOURS.val = 40 := by
  norm_num [REGULAR_HOURS, Dec.val]

theorem val_OVERTIME_MULTIPLIER : OVERTIME_MULTIPLIER.val = 1.5 := by
  norm_num [OVERTIME_MULTIPLIER, Dec.val]

theorem val_TAX_RATE : TAX_RATE.val = 0.2 := by
  norm_num [TAX_RATE, Dec.val]

/-! ## Branch lemmas for `calculate_payroll` -/

theorem calculate_payroll_overtime (e : Employee)
    (h : REGULAR_HOURS.lt e.hours_worked) :
    calculate_payroll e =
      ⟨e.hours_worked.sub REGULAR_HOURS,
       (e.hours_worked.sub REGULAR_HOURS).mul (e.hourly_rate.mul OVERTIME_MULTIPLIER),
       (REGULAR_HOURS.mul e.hourly_rate).add
         ((e.hours_worked.sub REGULAR_HOURS).mul (e.hourly_rate.mul OVERTIME_MULTIPLIER)),
       ((REGULAR_HOURS.mul e.hourly_rate).add
         ((e.hours_worked.sub REGULAR_HOURS).mul (e.hourly_rate.mul OVERTIME_MULTIPLIER))).mul
         TAX_RATE,
       ((REGULAR_HOURS.mul e.hourly_rate).add
         ((e.hours_worked.sub REGULAR_HOURS).mul (e.hourly_rate.mul OVERTIME_MULTIPLIER))).sub
         (((REGULAR_HOURS.mul e.hourly_rate).add
           ((e.hours_worked.sub REGULAR_HOURS).mul
             (e.hourly_rate.mul OVERTIME_MULTIPLIER))).mul TAX_RATE)⟩ := by
  unfold calculate_payroll
  rw [if_pos h]

theorem calculate_payroll_regular (e : Employee)
    (h : ¬ REGULAR_HOURS.lt e.hours_worked) :
    calculate_payroll e =
      ⟨⟨0, 0⟩, ⟨0, 0⟩,
       e.hours_worked.mul e.hourly_rate,
       (e.hours_worked.mul e.hourly_rate).mul TAX_RATE,
       (e.hours_worked.mul e.hourly_rate).sub
         ((e.hours_worked.mul e.hourly_rate).mul TAX_RATE)⟩ := by
  unfold calculate_payroll
  rw [if_neg h]

/-! ## Lemmas about validation and the report loop -/

theorem validateLoop_append (pre : List Employee) (e : Employee) (post : List Employee)
    (err : PayrollError) (hpre : ∀ x ∈ pre, x.validate = Except.ok ())
    (he : e.validate = Except.error err) :
    validateLoop (pre ++ e :: post) = Except.error err := by
  induction pre with
  | nil => simp [validateLoop, he]
  | cons a rest ih =>
    have ha : a.validate = Except.ok () := hpre a (by simp)
    simp only [List.cons_append, validateLoop, ha]
    exact ih (fun x hx => hpre x (by simp [hx]))

theorem report_fold (l : List Employee) (lines : List String) (tg tn : Dec) :
    l.foldl report_step (lines, tg, tn) =
      (lines ++ l.map employee_line, total_gross l tg, total_net l tn) := by
  induction l generalizing lines tg tn with
  | nil => simp [total_gross, total_net]
  | cons e rest ih =>
    simp only [List.foldl_cons, List.map_cons]
    rw [show report_step (lines, tg, tn) e =
        (lines ++ [employee_line e], tg.add (calculate_payroll e).gross_pay,
          tn.add (calculate_payroll e).net_pay) from rfl]
    rw [ih]
    simp [total_gross, total_net]

/-! ## Claims -/

/-- C1: for every employee, `calculate_payroll` computes gross pay by the
piecewise formula: at most 40 hours gives no overtime and
`grossPay = hoursWorked * hourlyRate`; more than 40 hours gives
`overtimeHours = hoursWorked - 40`,
`overtimePay = overtimeHours * hourlyRate * 1.5`, and
`grossPay = 40 * hourlyRate + overtimePay`. -/
theorem calculate_payroll_piecewise (e : Employee) :
    (e.hours_worked.val ≤ 40 →
      (calculate_payroll e).overtime_hours.val = 0 ∧
      (calculate_payroll e).overtime_pay.val = 0 ∧
      (calculate_payroll e).gross_pay.val = e.hours_worked.val * e.hourly_rate.val) ∧
    (40 < e.hours_worked.val →
      (calculate_payroll e).overtime_hours.val = e.hours_worked.val - 40 ∧
      (calculate_payroll e).overtime_pay.val =
        (calculate_payroll e).overtime_hours.val * e.hourly_rate.val * 1.5 ∧
      (calculate_payroll e).gross_pay.val =
        40 * e.hourly_rate.val + (calculate_payroll e).overtime_pay.val) := by
  by_cases h : REGULAR_HOURS.lt e.hours_worked
  · have h40 : 40 < e.hours_worked.val := by
      rw [← val_REGULAR_HOURS]
      exact (Dec.lt_iff_val _ _).1 h
    refine ⟨fun hle => absurd h40 (not_lt.2 hle), fun _ => ?_⟩
    rw [calculate_payroll_overtime e h]
    refine ⟨?_, ?_, ?_⟩
    · simp [val_REGULAR_HOURS]
    · simp only [Breakdown.mk.injEq, Dec.val_sub, Dec.val_mul,
        val_REGULAR_HOURS, val_OVERTIME_MULTIPLIER]
      ring
    · simp [val_REGULAR_HOURS, val_OVERTIME_MULTIPLIER]
  · have h40 : ¬ (40 < e.hours_worked.val) := fun hc =>
      h ((Dec.lt_iff_val _ _).2 (val_REGULAR_HOURS ▸ hc))
    refine ⟨fun _ => ?_, fun hgt => absurd hgt h40⟩
    rw [calculate_payroll_regular e h]
    refine ⟨?_, ?_, ?_⟩ <;> simp

/-- C1 witness: the regular branch at `John(40, 15)` and the overtime
branch at `Jane(45, 20)`. -/
theorem calculate_payroll_piecewise_witness :
    ((calculate_payroll ⟨"John", ⟨40, 0⟩, ⟨15, 0⟩⟩).overtime_hours.val = 0 ∧
     (calculate_payroll ⟨"John", ⟨40, 0⟩, ⟨15, 0⟩⟩).overtime_pay.val = 0 ∧
     (calculate_payroll ⟨"John", ⟨40, 0⟩, ⟨15, 0⟩⟩).gross_pay.val =
       Dec.val ⟨40, 0⟩ * Dec.val ⟨15, 0⟩) ∧
    ((calculate_payroll ⟨"Jane", ⟨45, 0⟩, ⟨20, 0⟩⟩).overtime_hours.val =
       Dec.val ⟨45, 0⟩ - 40 ∧
     (calculate_payroll ⟨"Jane", ⟨45, 0⟩, ⟨20, 0⟩⟩).overtime_pay.val =
       (calculate_payroll ⟨"Jane", ⟨45, 0⟩, ⟨20, 0⟩⟩).overtime_hours.val *
         Dec.val ⟨20, 0⟩ * 1.5 ∧
     (calculate_payroll ⟨"Jane", ⟨45, 0⟩, ⟨20, 0⟩⟩).gross_pay.val =
       40 * Dec.val ⟨20, 0⟩ +
         (calculate_payroll ⟨"Jane", ⟨45, 0⟩, ⟨20, 0⟩⟩).overtime_pay.val) :=
  ⟨(calculate_payroll_piecewise ⟨"John", ⟨40, 0⟩, ⟨15, 0⟩⟩).1 (by norm_num [Dec.val]),
   (calculate_payroll_piecewise ⟨"Jane", ⟨45, 0⟩, ⟨20, 0⟩⟩).2 (by norm_num [Dec.val])⟩

/-- C2: for every employee, the breakdown satisfies
`taxAmount = grossPay * 0.2` and `netPay = grossPay - taxAmount` as exact
equalities of decimal values. -/
theorem calculate_payroll_tax_net (e : Employee) :
    (calculate_payroll e).tax_amount.val = (calculate_payroll e).gross_pay.val * 0.2 ∧
    (calculate_payroll e).net_pay.val =
      (calculate_payroll e).gross_pay.val - (calculate_payroll e).tax_amount.val := by
  by_cases h : REGULAR_HOURS.lt e.hours_worked
  · rw [calculate_payroll_overtime e h]
    constructor <;> simp [val_TAX_RATE]
  · rw [calculate_payroll_regular e h]
    constructor <;> simp [val_TAX_RATE]

/-- C2 witness: the tax and net equations at `Jane(45, 20)`. -/
theorem calculate_payroll_tax_net_witness :
    (calculate_payroll ⟨"Jane", ⟨45, 0⟩, ⟨20, 0⟩⟩).tax_amount.val =
      (calculate_payroll ⟨"Jane", ⟨45, 0⟩, ⟨20, 0⟩⟩).gross_pay.val * 0.2 ∧
    (calculate_payroll ⟨"Jane", ⟨45, 0⟩, ⟨20, 0⟩⟩).net_pay.val =
      (calculate_payroll ⟨"Jane", ⟨45, 0⟩, ⟨20, 0⟩⟩).gross_pay.val -
        (calculate_payroll ⟨"Jane", ⟨45, 0⟩, ⟨20, 0⟩⟩).tax_amount.val :=
  calculate_payroll_tax_net ⟨"Jane", ⟨45, 0⟩, ⟨20, 0⟩⟩

/-- C3 counterexample: for `John(40.5, 15.75)` the computed gross pay is
not `637.875`: since `40.5 > 40` the overtime branch applies. -/
theorem scenario_d_gross_ne :
    (calculate_payroll ⟨"John", ⟨405, 1⟩, ⟨1575, 2⟩⟩).gross_pay.val ≠ 637.875 := by
  have h := calculate_payroll_overtime ⟨"John", ⟨405, 1⟩, ⟨1575, 2⟩⟩ (by decide)
  rw [h]
  norm_num [Dec.val, Dec.add, Dec.sub, Dec.mul, REGULAR_HOURS, OVERTIME_MULTIPLIER]

/-- C3 (amended): for `John(40.5, 15.75)` the overtime branch applies
(`40.5 > 40`), so `calculate_payroll` returns `overtimeHours = 0.5`,
`grossPay = 641.8125 = 40*15.75 + 0.5*(15.75*1.5)`,
`taxAmount = 128.3625` and `netPay = 513.45`, all exactly. -/
theorem scenario_d_breakdown :
    (calculate_payroll ⟨"John", ⟨405, 1⟩, ⟨1575, 2⟩⟩).overtime_hours.val = 0.5 ∧
    (calculate_payroll ⟨"John", ⟨405, 1⟩, ⟨1575, 2⟩⟩).gross_pay.val = 641.8125 ∧
    (641.8125 : ℚ) = 40 * 15.75 + (40.5 - 40) * (15.75 * 1.5) ∧
    (calculate_payroll ⟨"John", ⟨405, 1⟩, ⟨1575, 2⟩⟩).tax_amount.val = 128.3625 ∧
    (calculate_payroll ⟨"John", ⟨405, 1⟩, ⟨1575, 2⟩⟩).net_pay.val = 513.45 := by
  have h := calculate_payroll_overtime ⟨"John", ⟨405, 1⟩, ⟨1575, 2⟩⟩ (by decide)
  rw [h]
  norm_num [Dec.val, Dec.add, Dec.sub, Dec.mul, REGULAR_HOURS, OVERTIME_MULTIPLIER,
    TAX_RATE]

/-- C4: constructing the processor from an empty employee list fails with
the empty-roster error, so no processor is produced. -/
theorem create_empty_roster :
    PayrollProcessor.create [] = Except.error PayrollError.emptyRoster := rfl

/-- C5 counterexample: the employee `("", -1, 15)` has negative hours but
`validate` fails with the name error, not the hours error, so "fails with
`NegativeHours` exactly when `hoursWorked < 0`" is false as stated. -/
theorem validate_not_iff_negative_hours :
    Dec.val ⟨-1, 0⟩ < 0 ∧
    Employee.validate ⟨"", ⟨-1, 0⟩, ⟨15, 0⟩⟩ = Except.error PayrollError.invalidName ∧
    Employee.validate ⟨"", ⟨-1, 0⟩, ⟨15, 0⟩⟩ ≠ Except.error PayrollError.negativeHours := by
  have h1 : Employee.validate ⟨"", ⟨-1, 0⟩, ⟨15, 0⟩⟩ =
      Except.error PayrollError.invalidName := rfl
  refine ⟨by norm_num [Dec.val], h1, fun hcontra => ?_⟩
  exact PayrollError.noConfusion (Except.error.inj (h1.symm.trans hcontra))

/-- C5 (amended): `validate` checks the fields in order, so it fails with
`InvalidName` exactly when the name is empty; with `NegativeHours` exactly
when the name is non-empty and `hoursWorked < 0`; with `NonPositiveRate`
exactly when the name is non-empty, `hoursWorked ≥ 0` and
`hourlyRate ≤ 0`; and succeeds exactly when the name is non-empty,
`hoursWorked ≥ 0` and `hourlyRate > 0`.  (The "not text" part of the name
check is vacuous in the typed embedding, where the name is always a
string.) -/
theorem validate_characterization (e : Employee) :
    (e.validate = Except.error PayrollError.invalidName ↔ e.name = "") ∧
    (e.validate = Except.error PayrollError.negativeHours ↔
      ¬ e.name = "" ∧ e.hours_worked.val < 0) ∧
    (e.validate = Except.error PayrollError.nonPositiveRate ↔
      ¬ e.name = "" ∧ 0 ≤ e.hours_worked.val ∧ e.hourly_rate.val ≤ 0) ∧
    (e.validate = Except.ok () ↔
      ¬ e.name = "" ∧ 0 ≤ e.hours_worked.val ∧ 0 < e.hourly_rate.val) := by
  have hlt : e.hours_worked.lt ⟨0, 0⟩ ↔ e.hours_worked.val < 0 := by
    rw [Dec.lt_iff_val, Dec.val_zero]
  have hle : e.hourly_rate.le ⟨0, 0⟩ ↔ e.hourly_rate.val ≤ 0 := by
    rw [Dec.le_iff_val, Dec.val_zero]
  unfold Employee.validate
  split_ifs with h1 h2 h3 <;> simp_all [not_lt, not_le]

/-- C5 witness: the amended characterization at the valid employee
`Ann(1, 2)`. -/
theorem validate_characterization_witness :
    Employee.validate ⟨"Ann", ⟨1, 0⟩, ⟨2, 0⟩⟩ = Except.ok () ↔
      ¬ "Ann" = "" ∧ 0 ≤ Dec.val ⟨1, 0⟩ ∧ 0 < Dec.val ⟨2, 0⟩ :=
  (validate_characterization ⟨"Ann", ⟨1, 0⟩, ⟨2, 0⟩⟩).2.2.2

/-- C6: processor construction on a roster whose first invalid employee
raises `err` fails with exactly `err`, whatever comes after that
employee. -/
theorem create_first_invalid (pre : List Employee) (e : Employee)
    (post : List Employee) (err : PayrollError)
    (hpre : ∀ x ∈ pre, x.validate = Except.ok ())
    (he : e.validate = Except.error err) :
    PayrollProcessor.create (pre ++ e :: post) = Except.error err := by
  have hne : pre ++ e :: post ≠ [] := by simp
  unfold PayrollProcessor.create validate_employees
  rw [if_neg hne, validateLoop_append pre e post err hpre he]

/-- C6 witness: a valid employee, then one with a non-positive rate, then
a further (unchecked) employee with negative hours: construction fails
with the rate error of the first invalid employee. -/
theorem create_first_invalid_witness :
    PayrollProcessor.create
        [⟨"Ann", ⟨10, 0⟩, ⟨12, 0⟩⟩, ⟨"Bob", ⟨5, 0⟩, ⟨0, 0⟩⟩,
         ⟨"Cid", ⟨-7, 0⟩, ⟨9, 0⟩⟩] =
      Except.error PayrollError.nonPositiveRate :=
  create_first_invalid [⟨"Ann", ⟨10, 0⟩, ⟨12, 0⟩⟩] ⟨"Bob", ⟨5, 0⟩, ⟨0, 0⟩⟩
    [⟨"Cid", ⟨-7, 0⟩, ⟨9, 0⟩⟩] PayrollError.nonPositiveRate
    (by
      intro x hx
      rw [List.mem_singleton] at hx
      subst hx
      rfl)
    rfl

set_option maxRecDepth 1000000 in
/-- C7: for the roster `[John(40, 15), Jane(45, 20)]` the construction
succeeds and the report consists of the two header lines, one line per
employee containing the exact substrings `worked 40 hrs` and
`worked 45 hrs`, and the footer lines `Total Gross: $1550.00` and
`Total Net: $1240.00`. -/
theorem report_scenario_c :
    PayrollProcessor.create scenario_c_roster = Except.ok ⟨scenario_c_roster⟩ ∧
    scenario_c_lines.length = 6 ∧
    scenario_c_lines.getD 0 [] = "Employee Payroll Report:".data ∧
    scenario_c_lines.getD 1 [] = "========================".data ∧
    isInfixB "worked 40 hrs".data (scenario_c_lines.getD 2 []) = true ∧
    isInfixB "worked 45 hrs".data (scenario_c_lines.getD 3 []) = true ∧
    scenario_c_lines.getD 4 [] = "Total Gross: $1550.00".data ∧
    scenario_c_lines.getD 5 [] = "Total Net: $1240.00".data :=
  ⟨rfl, by decide, by decide, by decide, by decide, by decide, by decide, by decide⟩

/-- C8: for every valid roster, the report is the header lines, one line
per employee in stored order of the form
`<name> worked <hoursWorked> hrs, gross $<grossPay to 2 decimals>, net
$<netPay to 2 decimals>`, and the two footer lines, joined by newlines;
hours are rendered by the plain decimal string (so `40` renders as `40`),
while money uses the forced two-decimal format (`40.00`). -/
theorem generate_report_format (l : List Employee) (p : PayrollProcessor)
    (h : PayrollProcessor.create l = Except.ok p) :
    generate_report p =
      join_nl (["Employee Payroll Report:", "========================"] ++
        l.map employee_line ++
        ["Total Gross: $" ++ (total_gross l ⟨0, 0⟩).fmt2,
         "Total Net: $" ++ (total_net l ⟨0, 0⟩).fmt2]) ∧
    (∀ e ∈ l, employee_line e =
      e.name ++ " worked " ++ e.hours_worked.str ++ " hrs, " ++
        "gross $" ++ (calculate_payroll e).gross_pay.fmt2 ++ ", " ++
        "net $" ++ (calculate_payroll e).net_pay.fmt2) ∧
    Dec.str ⟨40, 0⟩ = "40" ∧ Dec.fmt2 ⟨40, 0⟩ = "40.00" := by
  have hp : p = ⟨l⟩ := by
    unfold PayrollProcessor.create at h
    cases hv : validate_employees l with
    | error err =>
      rw [hv] at h
      exact Except.noConfusion h
    | ok u =>
      rw [hv] at h
      exact (Except.ok.inj h).symm
  subst hp
  refine ⟨?_, fun e _ => rfl, by decide, by decide⟩
  unfold generate_report
  dsimp only
  rw [report_fold]

/-- C8 witness: the report format at the singleton roster `[John(40, 15)]`. -/
theorem generate_report_format_witness :
    generate_report ⟨[⟨"John", ⟨40, 0⟩, ⟨15, 0⟩⟩]⟩ =
      join_nl (["Employee Payroll Report:", "========================"] ++
        [⟨"John", ⟨40, 0⟩, ⟨15, 0⟩⟩].map employee_line ++
        ["Total Gross: $" ++ (total_gross [⟨"John", ⟨40, 0⟩, ⟨15, 0⟩⟩] ⟨0, 0⟩).fmt2,
         "Total Net: $" ++ (total_net [⟨"John", ⟨40, 0⟩, ⟨15, 0⟩⟩] ⟨0, 0⟩).fmt2]) :=
  (generate_report_format [⟨"John", ⟨40, 0⟩, ⟨15, 0⟩⟩]
    ⟨[⟨"John", ⟨40, 0⟩, ⟨15, 0⟩⟩]⟩ rfl).1

/-- C9: `calculate_payroll` is deterministic and effect-free: viewed as a
state transformer on the processor and the employee record it leaves both
unchanged, and a second call on the resulting state yields the identical
breakdown. -/
theorem calculate_payroll_pure (p : PayrollProcessor) (e : Employee) :
    (calculate_payroll_call p e).2.1 = p ∧
    (calculate_payroll_call p e).2.2 = e ∧
    (calculate_payroll_call ((calculate_payroll_call p e).2.1)
        ((calculate_payroll_call p e).2.2)).1 =
      (calculate_payroll_call p e).1 :=
  ⟨rfl, rfl, rfl⟩

/-- C9 witness: purity of the call at a concrete processor and employee. -/
theorem calculate_payroll_pure_witness :
    (calculate_payroll_call ⟨[]⟩ ⟨"Ann", ⟨1, 0⟩, ⟨2, 0⟩⟩).2.1 = ⟨[]⟩ ∧
    (calculate_payroll_call ⟨[]⟩ ⟨"Ann", ⟨1, 0⟩, ⟨2, 0⟩⟩).2.2 = ⟨"Ann", ⟨1, 0⟩, ⟨2, 0⟩⟩ ∧
    (calculate_payroll_call ((calculate_payroll_call ⟨[]⟩ ⟨"Ann", ⟨1, 0⟩, ⟨2, 0⟩⟩).2.1)
        ((calculate_payroll_call ⟨[]⟩ ⟨"Ann", ⟨1, 0⟩, ⟨2, 0⟩⟩).2.2)).1 =
      (calculate_payroll_call ⟨[]⟩ ⟨"Ann", ⟨1, 0⟩, ⟨2, 0⟩⟩).1 :=
  calculate_payroll_pure ⟨[]⟩ ⟨"Ann", ⟨1, 0⟩, ⟨2, 0⟩⟩

/-- C10: `validate` checks name, then hours, then rate: with an empty name
it fails with the name error whatever the other fields are; the hours
error needs a non-empty name; the rate error additionally needs
non-negative hours. -/
theorem validate_precedence (e : Employee) :
    (e.name = "" → e.validate = Except.error PayrollError.invalidName) ∧
    (¬ e.name = "" → e.hours_worked.val < 0 →
      e.validate = Except.error PayrollError.negativeHours) ∧
    (¬ e.name = "" → 0 ≤ e.hours_worked.val → e.hourly_rate.val ≤ 0 →
      e.validate = Except.error PayrollError.nonPositiveRate) := by
  refine ⟨fun h1 => ?_, fun h1 h2 => ?_, fun h1 h2 h3 => ?_⟩
  · unfold Employee.validate
    rw [if_pos h1]
  · have hl : e.hours_worked.lt ⟨0, 0⟩ :=
      (Dec.lt_iff_val _ _).2 (by simpa using h2)
    unfold Employee.validate
    rw [if_neg h1, if_pos hl]
  · have hnl : ¬ e.hours_worked.lt ⟨0, 0⟩ := fun hc =>
      absurd (by simpa using (Dec.lt_iff_val _ _).1 hc) (not_lt.2 h2)
    have hr : e.hourly_rate.le ⟨0, 0⟩ :=
      (Dec.le_iff_val _ _).2 (by simpa using h3)
    unfold Employee.validate
    rw [if_neg h1, if_neg hnl, if_pos hr]

/-- C10 witness: an employee with an empty name and negative hours fails
with the name error; one with negative hours and a non-positive rate fails
with the hours error; one with only a non-positive rate fails with the
rate error. -/
theorem validate_precedence_witness :
    Employee.validate ⟨"", ⟨-2, 0⟩, ⟨15, 0⟩⟩ = Except.error PayrollError.invalidName ∧
    Employee.validate ⟨"Bob", ⟨-2, 0⟩, ⟨0, 0⟩⟩ = Except.error PayrollError.negativeHours ∧
    Employee.validate ⟨"Bob", ⟨3, 0⟩, ⟨-4, 0⟩⟩ = Except.error PayrollError.nonPositiveRate :=
  ⟨(validate_precedence ⟨"", ⟨-2, 0⟩, ⟨15, 0⟩⟩).1 rfl,
   (validate_precedence ⟨"Bob", ⟨-2, 0⟩, ⟨0, 0⟩⟩).2.1 (by decide) (by norm_num [Dec.val]),
   (validate_precedence ⟨"Bob", ⟨3, 0⟩, ⟨-4, 0⟩⟩).2.2 (by decide) (by norm_num [Dec.val])
     (by norm_num [Dec.val])⟩
